import Mathlib

/-!
Verification of the wildcard-page resolution and sitemap-synthesis pipeline.

The development shallowly embeds the resolver (`resolvePageWithWildcard`,
`queryTargetSiteAndCreatePage`), the field-overlay engine, and the sitemap
enhancement (`enhanceSitemapWithWildcardPages`) of the repository.  External
collaborators (the Content Client's `getPage` and the remote GraphQL fetch)
are passed in as function parameters; a thrown exception is modelled as
`Except.error`, a missing document as `Except.ok none`.  JavaScript strings
are modelled as `String` (or `List Char` where the code splices raw XML),
JavaScript objects with optional keys as structures with `Option` fields,
and object key/value records that are only passed through as association
lists.
-/

/-! ## Generic string helpers (JS `includes`, `startsWith`, `a || b`) -/

/-- Does `pat` occur as a prefix-at-some-position (i.e. substring) of `s`?
Models JS `String.prototype.includes` over code units. -/
def occursIn (pat : List Char) : List Char → Bool
  | [] => pat.isEmpty
  | c :: rest => pat.isPrefixOf (c :: rest) || occursIn pat rest

/-- JS `s.includes(pat)`. -/
def jsIncludes (s pat : String) : Bool :=
  occursIn pat.toList s.toList

/-- JS `s.startsWith(pat)`. -/
def jsStartsWith (s pat : String) : Bool :=
  pat.toList.isPrefixOf s.toList

/-- JS `a || b` for an optional string `a` (both `undefined` and `""` are
falsy) with fallback `b`. -/
def jsOr (a : Option String) (b : String) : String :=
  match a with
  | some s => if s = "" then b else s
  | none => b

/-- Number of (possibly overlapping) occurrences of `pat` in a character
list.  Used to count `<url>` blocks in generated sitemaps. -/
def countOcc (pat : List Char) : List Char → Nat
  | [] => 0
  | c :: rest => (if pat.isPrefixOf (c :: rest) then 1 else 0) + countOcc pat rest

/-- Remove the first occurrence of `pat`; models JS
`s.replace(pat, '')` with a plain-string pattern. -/
def removeFirstOcc (pat : List Char) : List Char → List Char
  | [] => []
  | c :: rest =>
    if pat.isPrefixOf (c :: rest) then (c :: rest).drop pat.length
    else c :: removeFirstOcc pat rest

/-- `noMatchBefore pat pre tail` holds when no occurrence of `pat` starts
inside `pre` when `pre ++ tail` is scanned left to right. -/
def noMatchBefore (pat : List Char) : List Char → List Char → Bool
  | [], _ => true
  | c :: rest, tail => !(pat.isPrefixOf (c :: rest ++ tail)) && noMatchBefore pat rest tail

/-! ## Data model

`Document`s delivered by the Content Client are `page.layout.sitecore.route`
trees.  A field carries a plain `value` and a structured `jsonValue.value`;
any further keys of these objects are carried opaquely in `meta`. -/

/-- The `{ value?, ...rest }` wrapper found under a field's `jsonValue`. -/
structure JsonWrap where
  value : Option String
  meta : List (String × String)
  deriving DecidableEq

/-- A Sitecore route field: `{ value?, jsonValue?: { value? }, ...rest }`. -/
structure SField where
  value : Option String
  jsonValue : Option JsonWrap
  meta : List (String × String)
  deriving DecidableEq

/-- The route's field mapping.  The overlay reads and writes only the
`Title` and `Content` keys; every other key is passed through. -/
structure RouteFields where
  title : Option SField
  content : Option SField
  others : List (String × SField)
  deriving DecidableEq

/-- A rendering's embedded data binding: `{ field?: { jsonValue?: … } }`,
the shape probed for `datasource` and `contextItem`. -/
structure BindingField where
  jsonValue : Option JsonWrap
  deriving DecidableEq

/-- A `datasource` or `contextItem` entry under `rendering.fields.data`. -/
structure Binding where
  field : Option BindingField
  deriving DecidableEq

/-- `rendering.fields.data`, exposing the two bindings the overlay updates. -/
structure RenderingData where
  datasource : Option Binding
  contextItem : Option Binding
  deriving DecidableEq

/-- A component instance inside a placeholder.  `data` models
`rendering.fields.data` (absent when the rendering has no `fields` or no
`data` key). -/
structure Rendering where
  componentName : String
  data : Option RenderingData
  deriving DecidableEq

/-- A resolved route: name, item id, field mapping and placeholder tree
(`placeholder name ↦ ordered rendering sequence`). -/
structure Route where
  name : String
  itemId : String
  fields : RouteFields
  placeholders : List (String × List Rendering)
  deriving DecidableEq

/-- A page as returned by the Content Client; `route` is
`page.layout?.sitecore?.route`, which the code treats as possibly absent. -/
structure Page where
  route : Option Route
  deriving DecidableEq

/-- `route?.name || ''`. -/
def Page.routeName (p : Page) : String :=
  (p.route.map Route.name).getD ""

/-- `route?.itemId || ''`. -/
def Page.routeItemId (p : Page) : String :=
  (p.route.map Route.itemId).getD ""

/-- One `{ name, value }` pair of a remote item's field list. -/
structure ItemField where
  name : String
  value : String
  deriving DecidableEq

/-- A remote (target-site) item as returned by the fields query. -/
structure RemoteItem where
  id : String
  name : String
  fields : List ItemField
  deriving DecidableEq

/-- Static configuration: the two `SITECORE_TARGET_SITE_*` environment
values and the edge endpoint configuration (`edgeUrl`, `contextId`). -/
structure Config where
  targetSiteName : String
  targetSitePath : String
  edgeUrl : String
  contextId : String
  deriving DecidableEq

/-- `client.getPage(pathSegments, { site, locale })`; `Except.error`
models a thrown exception. -/
abbrev ContentClient := List String → String → String → Except String (Option Page)

/-- The remote fields query (`GET_ITEM_WITH_FIELDS_QUERY`) keyed by item
path and language; `Except.error` models `RemoteUnavailable` and
`RemoteQueryError`, `Except.ok none` a null `item` in the response. -/
abbrev RemoteFetch := String → String → Except String (Option RemoteItem)

/-! ## Field Overlay Engine -/

/-- Build the replacement `Title`/`Content` field: spread the existing
field (preserving its metadata envelope), then overwrite both the plain
`value` and the nested `jsonValue.value` with the new value. -/
def overlayField (existing : Option SField) (v : String) : SField :=
  { value := some v,
    jsonValue := some
      { value := some v,
        meta := ((existing.bind SField.jsonValue).map JsonWrap.meta).getD [] },
    meta := (existing.map SField.meta).getD [] }

/-- The top-level field overlay: always rewrite `Title`; rewrite `Content`
only when the incoming content string is truthy (non-empty). -/
def overlayFields (flds : RouteFields) (title content : String) : RouteFields :=
  { title := some (overlayField flds.title title),
    content := if content = "" then flds.content else some (overlayField flds.content content),
    others := flds.others }

/-- `titleField.value || titleField.jsonValue?.value || ''` — the value
written into every embedded binding. -/
def bindingWriteValue (tf : SField) : String :=
  jsOr tf.value (jsOr (tf.jsonValue.bind JsonWrap.value) "")

/-- Overwrite a binding's `field.jsonValue.value` when that chain exists;
missing substructure is left untouched. -/
def updateBinding (v : String) (b : Binding) : Binding :=
  match b.field with
  | none => b
  | some bf =>
    match bf.jsonValue with
    | none => b
    | some jv => { field := some { bf with jsonValue := some { jv with value := some v } } }

/-- `updateRenderingFields`: when the rendering exposes `fields.data`,
rewrite its `contextItem` and `datasource` bindings with the title value. -/
def updateRendering (tf : SField) (rend : Rendering) : Rendering :=
  match rend.data with
  | none => rend
  | some d =>
    { rend with
      data := some
        { datasource := d.datasource.map (updateBinding (bindingWriteValue tf)),
          contextItem := d.contextItem.map (updateBinding (bindingWriteValue tf)) } }

/-- Walk every placeholder's rendering sequence and update each rendering;
the tree's keys and sequence order are reproduced as-is. -/
def updatePlaceholders (tf : SField) (phs : List (String × List Rendering)) :
    List (String × List Rendering) :=
  phs.map (fun e => (e.1, e.2.map (updateRendering tf)))

/-- The full overlay of the wildcard branch on a route: top-level field
overlay plus tree propagation of the (already rebuilt) title field. -/
def overlayRoute (route : Route) (title content : String) : Route :=
  { route with
    fields := overlayFields route.fields title content,
    placeholders := updatePlaceholders (overlayField route.fields.title title) route.placeholders }

/-- Wildcard-template branch: clone, overlay fields, propagate the title
through the placeholder tree, and rename the route to the remote item.
Returns `none` when the template page has no route. -/
def overlayWildcard (template : Page) (newName newId title content : String) : Option Page :=
  match template.route with
  | none => none
  | some route =>
    let r := overlayRoute route title content
    some { route := some { r with name := newName, itemId := newId } }

/-- Parent/root-template branch: clone, overlay only the top-level fields
and rename the route; the placeholder tree is kept as deep-copied, with no
binding propagation. -/
def overlayTemplateTopLevel (template : Page) (newName newId title content : String) : Option Page :=
  match template.route with
  | none => none
  | some route =>
    let r : Route :=
      { name := newName, itemId := newId,
        fields := overlayFields route.fields title content,
        placeholders := route.placeholders }
    some { route := some r }

/-! ## Path Sanitizer and locale normalization -/

/-- Segment filter used by `queryTargetSiteAndCreatePage` (drops empty and
dotted segments and the known tooling-probe filename). -/
def qValidSegment (s : String) : Bool :=
  !(s == "") && !(jsIncludes s ".") && !(jsStartsWith s ".well-known")
    && !(s == "com.chrome.devtools.json")

/-- Segment filter used by `resolvePageWithWildcard` (additionally drops
segments mentioning `devtools` or `chrome`). -/
def cleanSegment (s : String) : Bool :=
  !(s == "") && !(jsIncludes s ".") && !(jsStartsWith s ".well-known")
    && !(s == "com.chrome.devtools.json") && !(jsIncludes s "devtools")
    && !(jsIncludes s "chrome")

/-- Tier-0 rejection of system requests (Chrome DevTools probes etc.),
checked before any lookup. -/
def isSystemRequest (path : List String) (site locale : String) : Bool :=
  site == ".well-known" || locale == "appspecific"
    || path.any (fun s => jsIncludes s "devtools" || jsIncludes s "chrome"
        || jsIncludes s ".well-known")

/-- `locale && locale !== 'appspecific' ? locale : 'en'` (remote queries). -/
def normalizedLanguage (locale : String) : String :=
  if locale ≠ "" ∧ locale ≠ "appspecific" then locale else "en"

/-- `locale && locale !== 'appspecific' && locale !== 'undefined' ? locale : 'en'`
(the resolver's normalization). -/
def normalizedLocale (locale : String) : String :=
  if locale ≠ "" ∧ locale ≠ "appspecific" ∧ locale ≠ "undefined" then locale else "en"

/-! ## Remote item field extraction -/

/-- `fields?.find(f => f.name === 'Title' || f.name === 'title')?.value || item.name`. -/
def itemTitle (item : RemoteItem) : String :=
  jsOr ((item.fields.find? (fun f => f.name == "Title" || f.name == "title")).map ItemField.value)
    item.name

/-- `fields?.find(f => f.name === 'Content' || f.name === 'content')?.value || ''`. -/
def itemContent (item : RemoteItem) : String :=
  jsOr ((item.fields.find? (fun f => f.name == "Content" || f.name == "content")).map ItemField.value)
    ""

/-! ## Wildcard-template discovery inside `queryTargetSiteAndCreatePage` -/

/-- The candidate wildcard path shapes, in order:
`[path[0], '*']`, `['*']`, `[path[0]]` (the parent path). -/
def qWildcardPaths (path : List String) : List (List String) :=
  match path with
  | [] => [["*"], ["*"], []]
  | p0 :: _ => [[p0, "*"], ["*"], [p0]]

/-- The discovery loop over candidate paths.  `acc` is the mutable
`wildcardPage` variable: it is overwritten by every `getPage` result (also
by `null`), kept on a thrown `getPage`, and the loop breaks at a candidate
that is wildcard-named or wildcard-shaped, or whose probed wildcard child
is wildcard-named. -/
def qDiscoverLoop (cc : ContentClient) (site locale : String) :
    List (List String) → Option Page → Option Page
  | [], acc => acc
  | wp :: rest, acc =>
    match cc wp site locale with
    | .error _ => qDiscoverLoop cc site locale rest acc
    | .ok none => qDiscoverLoop cc site locale rest none
    | .ok (some page) =>
      if page.routeName = "*" ∨ wp.contains "*" then some page
      else if wp ≠ [] ∧ wp.getLast? ≠ some "*" then
        match cc (wp ++ ["*"]) site locale with
        | .ok (some child) =>
          if child.routeName = "*" then some child
          else qDiscoverLoop cc site locale rest (some page)
        | _ => qDiscoverLoop cc site locale rest (some page)
      else qDiscoverLoop cc site locale rest (some page)

/-! ## `queryTargetSiteAndCreatePage` -/

/-- The last valid segment (`validPath[validPath.length-1]`, else
`validPath[0]`; an empty valid path renders as the JS string
`"undefined"` inside the template literal). -/
def qItemName (path : List String) : String :=
  let validPath := path.filter qValidSegment
  if validPath.length > 1 then validPath.getLast?.getD "undefined"
  else validPath.head?.getD "undefined"

/-- `${TARGET_SITE_PATH}/${itemName}`. -/
def qTargetItemPath (cfg : Config) (path : List String) : String :=
  cfg.targetSitePath ++ "/" ++ qItemName path

/-- The final fallback of `queryTargetSiteAndCreatePage` when no wildcard
template was discovered: use the parent page (first segment only) as the
template, and when the parent lookup yields nothing, the root page.  Both
branches apply only the top-level overlay. -/
def ancestorTemplateFallback (cc : ContentClient) (path : List String)
    (site locale : String) (item : RemoteItem) : Option Page :=
  match cc (match path with | [] => [] | p0 :: _ => [p0]) site locale with
  | .error _ => none
  | .ok (some parentPage) =>
    overlayTemplateTopLevel parentPage item.name item.id (itemTitle item) (itemContent item)
  | .ok none =>
    match cc [] site locale with
    | .error _ => none
    | .ok (some rootPage) =>
      overlayTemplateTopLevel rootPage item.name item.id (itemTitle item) (itemContent item)
    | .ok none => none

/-- Query the target site for the requested item; on a hit, build a page
from the first available template: discovered wildcard template (with tree
propagation), else parent page, else root page (top-level overlay only).
Thrown errors anywhere inside are caught and yield `none`. -/
def queryTargetSiteAndCreatePage (cfg : Config) (cc : ContentClient) (remote : RemoteFetch)
    (path : List String) (site locale : String) : Option Page :=
  if cfg.targetSiteName = "" ∨ cfg.targetSitePath = "" then none
  else if cfg.edgeUrl = "" ∨ cfg.contextId = "" then none
  else
    match remote (qTargetItemPath cfg path) (normalizedLanguage locale) with
    | .error _ => none
    | .ok none => none
    | .ok (some item) =>
      match qDiscoverLoop cc site locale (qWildcardPaths path) none with
      | some wildcardPage =>
        overlayWildcard wildcardPage item.name item.id (itemTitle item) (itemContent item)
      | none => ancestorTemplateFallback cc path site locale item

/-! ## `resolvePageWithWildcard` -/

/-- The resolver's own candidate wildcard shapes (step 2):
`[finalPath[0], '*']`, `['*']`, `finalPath.slice(0,-1).concat('*')`. -/
def resolverWildcardPaths (finalPath : List String) : List (List String) :=
  [ (match finalPath with | [] => ["*"] | p0 :: _ => [p0, "*"]),
    ["*"],
    (if finalPath.length > 1 then finalPath.dropLast ++ ["*"] else ["*"]) ]

/-- The resolver's discovery loop: stops at the first candidate for which
`getPage` returns a page (no wildcard check); a thrown `getPage` here
propagates to the resolver's outer catch. -/
def resolverDiscover (cc : ContentClient) (site locale : String) :
    List (List String) → Except String (Option Page)
  | [] => .ok none
  | wp :: rest =>
    match cc wp site locale with
    | .error e => .error e
    | .ok (some p) => .ok (some p)
    | .ok none => resolverDiscover cc site locale rest

/-- The four-tier resolver.  Returns `none` for system requests, for a
tier-1 wildcard-named result, on any caught error, and when every tier
fails. -/
def resolvePageWithWildcard (cfg : Config) (cc : ContentClient) (remote : RemoteFetch)
    (path : List String) (site locale : String) : Option Page :=
  if isSystemRequest path site locale then none
  else
    let finalPath := path.filter cleanSegment
    let finalLocale := normalizedLocale locale
    if finalPath.isEmpty then
      match cc [] site finalLocale with
      | .error _ => none
      | .ok p => p
    else
      match cc finalPath site finalLocale with
      | .error _ => none
      | .ok (some page) =>
        if page.routeName = "*" ∧ path ≠ [] then none else some page
      | .ok none =>
        match resolverDiscover cc site finalLocale (resolverWildcardPaths finalPath) with
        | .error _ => none
        | .ok (some wildcardPage) =>
          if wildcardPage.routeItemId ≠ "" then
            if cfg.targetSiteName ≠ "" ∧ cfg.targetSitePath ≠ "" then
              queryTargetSiteAndCreatePage cfg cc remote finalPath site finalLocale
            else none
          else
            if cfg.targetSiteName ≠ "" ∧ cfg.targetSitePath ≠ "" then
              queryTargetSiteAndCreatePage cfg cc remote finalPath site finalLocale
            else none
        | .ok none =>
          if cfg.targetSiteName ≠ "" ∧ cfg.targetSitePath ≠ "" then
            queryTargetSiteAndCreatePage cfg cc remote finalPath site finalLocale
          else none

/-! ## Sitemap Synthesizer -/

/-- One child item of the remote wildcard node as used for sitemap
entries (only `name` feeds the URL construction). -/
structure WildcardChild where
  id : String
  name : String
  deriving DecidableEq

/-- The two `SITECORE_TARGET_SITE_*` values as read by the sitemap route. -/
structure SitemapConfig where
  targetSiteName : String
  targetSitePath : String
  deriving DecidableEq

/-- The double-quote character, kept numeric to avoid quoting noise. -/
def quoteChar : Char := Char.ofNat 34

/-- The apostrophe character. -/
def aposChar : Char := Char.ofNat 39

/-- The `&apos;` entity. -/
def aposEntity : List Char := ['&', 'a', 'p', 'o', 's', ';']

/-- The `&quot;` entity. -/
def quotEntity : List Char := ['&', 'q', 'u', 'o', 't', ';']

/-- Global single-character replacement; models one chained
`.replace(/x/g, ent)` pass of `escapeXml`. -/
def replaceAllChar (pat : Char) (rep : List Char) (s : List Char) : List Char :=
  s.flatMap (fun c => if c = pat then rep else [c])

/-- `escapeXml`: escape the five reserved XML characters, `&` first. -/
def escapeXml (s : List Char) : List Char :=
  replaceAllChar aposChar aposEntity
    (replaceAllChar quoteChar quotEntity
      (replaceAllChar '>' ("&gt;".toList)
        (replaceAllChar '<' ("&lt;".toList)
          (replaceAllChar '&' ("&amp;".toList) s))))

/-- `${baseUrl}/${[defaultSite, 'en', ...wildcardPrefix, child.name].join('/')}`. -/
def buildFullUrl (baseUrl defaultSite : String) (wildcardPre : List String)
    (childName : String) : String :=
  baseUrl ++ "/" ++ String.intercalate "/" ([defaultSite, "en"] ++ wildcardPre ++ [childName])

/-- One synthesized `<url>` block; `now` stands for
`new Date().toISOString()`. -/
def urlEntry (fullUrl now : String) : List Char :=
  ("\n    <url>\n      <loc>").toList
    ++ escapeXml fullUrl.toList
    ++ ("</loc>\n      <lastmod>").toList
    ++ now.toList
    ++ ("</lastmod>\n      <changefreq>weekly</changefreq>\n      <priority>0.8</priority>\n    </url>").toList

/-- The closing root tag of a sitemap. -/
def closingTagChars : List Char := ("</urlset>").toList

/-- Splice the synthesized entries into the base sitemap: before the first
`</urlset>` when present, else appended at the end. -/
def insertWildcardEntries (sitemapXml : List Char) (entries : List (List Char)) : List Char :=
  if occursIn closingTagChars sitemapXml then
    removeFirstOcc closingTagChars sitemapXml ++ entries.flatten ++ '\n' :: closingTagChars
  else sitemapXml ++ entries.flatten

/-- `enhanceSitemapWithWildcardPages`.  `prefixResult` is the outcome of
`getWildcardPathPrefix` (an `Except.error` models a throw inside the `try`,
caught by returning the base sitemap); `childrenResult` is the outcome of
the remote children fetch inside `getTargetSiteChildren`, whose own catch
turns an error into an empty list. -/
def enhanceSitemapWithWildcardPages (cfg : SitemapConfig) (defaultSite : String)
    (prefixResult : Except String (List String))
    (childrenResult : Except String (List WildcardChild))
    (baseUrl now : String) (sitemapXml : List Char) : List Char :=
  if cfg.targetSiteName = "" ∨ cfg.targetSitePath = "" then sitemapXml
  else if defaultSite = "" then sitemapXml
  else
    match prefixResult with
    | .error _ => sitemapXml
    | .ok wildcardPre =>
      let targetChildren := match childrenResult with
        | .error _ => []
        | .ok cs => cs
      if targetChildren.length = 0 then sitemapXml
      else
        let entries := targetChildren.map
          (fun child => urlEntry (buildFullUrl baseUrl defaultSite wildcardPre child.name) now)
        insertWildcardEntries sitemapXml entries

/-! ## Frame-comparison helpers

Erase exactly the leaf slots the overlay is allowed to write, so that
equality of stripped trees states that nothing else changed. -/

/-- Erase a binding's writable `field.jsonValue.value` slot. -/
def stripBinding (b : Binding) : Binding :=
  match b.field with
  | none => b
  | some bf =>
    match bf.jsonValue with
    | none => b
    | some jv => { field := some { bf with jsonValue := some { jv with value := none } } }

/-- Erase a rendering's writable binding slots. -/
def stripRendering (rend : Rendering) : Rendering :=
  match rend.data with
  | none => rend
  | some d =>
    { rend with
      data := some { datasource := d.datasource.map stripBinding,
                     contextItem := d.contextItem.map stripBinding } }

/-- Erase every writable binding slot of a placeholder tree. -/
def stripPlaceholders (phs : List (String × List Rendering)) :
    List (String × List Rendering) :=
  phs.map (fun e => (e.1, e.2.map stripRendering))

/-- Project the `contextItem` binding value of the first rendering of the
first placeholder out of a resolver result. -/
def contextBindingValue (res : Option Page) : Option String :=
  ((((((res.bind Page.route).map Route.placeholders).bind List.head?).map Prod.snd).bind
      List.head?).bind Rendering.data).bind RenderingData.contextItem
    |>.bind Binding.field |>.bind BindingField.jsonValue |>.bind JsonWrap.value

/-! ## Concrete fixtures used by witnesses and counterexamples -/

/-- A template title field holding the value `"Old"`. -/
def fOldTitle : SField :=
  { value := some "Old", jsonValue := some { value := some "Old", meta := [] }, meta := [] }

/-- A `contextItem` binding holding `"Old"`. -/
def demoBinding : Binding :=
  { field := some { jsonValue := some { value := some "Old", meta := [] } } }

/-- A rendering exposing a `contextItem` binding. -/
def demoRendering : Rendering :=
  { componentName := "Title", data := some { datasource := none, contextItem := some demoBinding } }

/-- A rendering with no `fields.data` at all. -/
def plainRendering : Rendering :=
  { componentName := "RichText", data := none }

/-- The wildcard-named template route. -/
def wildcardRouteFix : Route :=
  { name := "*", itemId := "wid-1",
    fields := { title := some fOldTitle, content := none, others := [] },
    placeholders := [("main", [demoRendering])] }

/-- The wildcard template page. -/
def wildcardDocFix : Page := { route := some wildcardRouteFix }

/-- A root page with a bound rendering, used as last-resort template. -/
def rootRouteFix : Route :=
  { name := "Home", itemId := "root-1",
    fields := { title := some fOldTitle, content := none, others := [] },
    placeholders := [("main", [demoRendering])] }

/-- The root page. -/
def rootDocFix : Page := { route := some rootRouteFix }

/-- A non-wildcard parent page. -/
def parentRouteFix : Route :=
  { name := "blog", itemId := "parent-1",
    fields := { title := some fOldTitle, content := none, others := [] },
    placeholders := [("main", [demoRendering])] }

/-- The parent page. -/
def parentDocFix : Page := { route := some parentRouteFix }

/-- A route with no bound renderings (no `fields.data` anywhere). -/
def unboundRouteFix : Route :=
  { name := "Plain", itemId := "plain-1",
    fields := { title := some fOldTitle, content := none, others := [] },
    placeholders := [("main", [plainRendering])] }

/-- A fully set configuration. -/
def cfgFix : Config :=
  { targetSiteName := "target", targetSitePath := "/content/target/Home/blog",
    edgeUrl := "https://edge.example", contextId := "ctx" }

/-- A configuration with both target-site environment values empty. -/
def cfgUnset : Config :=
  { targetSiteName := "", targetSitePath := "",
    edgeUrl := "https://edge.example", contextId := "ctx" }

/-- The remote item named `Hello` with no fields. -/
def helloItem : RemoteItem := { id := "rid-1", name := "Hello", fields := [] }

/-- Content Client stub: a wildcard-named document only at `["blog","*"]`. -/
def ccWildOnly : ContentClient := fun p _ _ =>
  if p = ["blog", "*"] then .ok (some wildcardDocFix) else .ok none

/-- Content Client stub: the wildcard document both at the direct path
`["blog","post-1"]` and at `["blog","*"]`. -/
def ccDirectWild : ContentClient := fun p _ _ =>
  if p = ["blog", "post-1"] ∨ p = ["blog", "*"] then .ok (some wildcardDocFix) else .ok none

/-- Content Client stub: only the root document exists. -/
def ccRootOnly : ContentClient := fun p _ _ =>
  if p = [] then .ok (some rootDocFix) else .ok none

/-- Content Client stub: a non-wildcard parent at `["blog"]` and a
wildcard child at `["blog","*"]` that is only reachable via the probe. -/
def ccParentProbe : ContentClient := fun p _ _ =>
  if p = ["blog"] then .ok (some parentDocFix)
  else if p = ["blog", "*"] then .ok (some wildcardDocFix)
  else .ok none

/-- Content Client stub: nothing exists anywhere. -/
def ccNone : ContentClient := fun _ _ _ => .ok none

/-- Remote stub: the `Hello` item at the derived path for `post-1`. -/
def remoteHello : RemoteFetch := fun p _ =>
  if p = "/content/target/Home/blog/post-1" then .ok (some helloItem) else .ok none

/-- Remote stub: no item anywhere. -/
def remoteNone : RemoteFetch := fun _ _ => .ok none

/-- Remote stub: every fetch attempt fails (transport error). -/
def remoteBoom : RemoteFetch := fun _ _ => .error "RemoteUnavailable"

/-- The error text family used to state that every remote call throws. -/
def remoteBoomMsg : String → String → String := fun _ _ => "RemoteUnavailable"

/-! ## Sitemap fixtures -/

/-- The spec's base sitemap example. -/
def c8base : List Char := ("<urlset><url>hello</url></urlset>").toList

/-- The part of `c8base` before the closing tag. -/
def c8pre : List Char := ("<urlset><url>hello</url>").toList

/-- One synthesized entry. -/
def c8entry : List Char :=
  urlEntry "https://h/s/en/blog/post-1" "2026-01-01T00:00:00.000Z"

/-- A fully set sitemap configuration. -/
def smCfgFix : SitemapConfig :=
  { targetSiteName := "target", targetSitePath := "/content/target/Home/blog" }

/-- A sitemap configuration with an empty target-site name. -/
def smCfgUnset : SitemapConfig :=
  { targetSiteName := "", targetSitePath := "/content/target/Home/blog" }

/-- One remote child. -/
def c9child : WildcardChild := { id := "c1", name := "post-1" }

/-- A malformed base sitemap: it has content but no closing tag. -/
def c9badBase : List Char := ("<urlset><url>a</url>").toList

/-! ## Overlay engine lemmas -/

/-- Rebuilding an already-rebuilt field with the same value changes
nothing: the metadata envelopes are preserved through the first rebuild. -/
theorem overlayField_stable (f : Option SField) (v : String) :
    overlayField (some (overlayField f v)) v = overlayField f v := rfl

/-- The top-level field overlay is idempotent for a fixed field set. -/
theorem overlayFields_idem (flds : RouteFields) (t c : String) :
    overlayFields (overlayFields flds t c) t c = overlayFields flds t c := by
  by_cases hc : c = "" <;>
    simp [overlayFields, hc, overlayField_stable]

/-- Writing the same value into a binding twice equals writing it once. -/
theorem updateBinding_idem (v : String) (b : Binding) :
    updateBinding v (updateBinding v b) = updateBinding v b := by
  rcases b with ⟨f⟩
  cases f with
  | none => rfl
  | some bf =>
    cases h : bf.jsonValue with
    | none => simp [updateBinding, h]
    | some jv => simp [updateBinding, h]

/-- Updating a rendering twice with the same title field equals once. -/
theorem updateRendering_idem (tf : SField) (rend : Rendering) :
    updateRendering tf (updateRendering tf rend) = updateRendering tf rend := by
  rcases rend with ⟨n, d⟩
  cases d with
  | none => rfl
  | some rd =>
    rcases rd with ⟨ds, ci⟩
    cases ds <;> cases ci <;>
      simp [updateRendering, updateBinding_idem]

/-- Updating a rendering list twice equals once. -/
theorem map_updateRendering_idem (tf : SField) (rs : List Rendering) :
    (rs.map (updateRendering tf)).map (updateRendering tf) = rs.map (updateRendering tf) := by
  induction rs with
  | nil => rfl
  | cons r rest ih => simp [updateRendering_idem, ih]

/-- The placeholder walk is idempotent for a fixed title field. -/
theorem updatePlaceholders_idem (tf : SField) (phs : List (String × List Rendering)) :
    updatePlaceholders tf (updatePlaceholders tf phs) = updatePlaceholders tf phs := by
  unfold updatePlaceholders
  rw [List.map_map]
  refine List.map_congr_left (fun e _ => ?_)
  simp only [Function.comp_apply]
  exact congrArg (fun l => (e.1, l)) (map_updateRendering_idem tf e.2)

/-- A rendering without `fields.data` is untouched by the walk. -/
theorem updateRendering_noData (tf : SField) (rend : Rendering) (h : rend.data = none) :
    updateRendering tf rend = rend := by
  rcases rend with ⟨n, d⟩
  cases d with
  | none => rfl
  | some rd => simp at h

/-- A rendering list with no data bindings is unchanged by the walk. -/
theorem map_updateRendering_noData (tf : SField) (rs : List Rendering)
    (h : ∀ rend, rend ∈ rs → rend.data = none) :
    rs.map (updateRendering tf) = rs := by
  induction rs with
  | nil => rfl
  | cons r rest ih =>
    simp only [List.map_cons, List.cons.injEq]
    exact ⟨updateRendering_noData tf r (h r (List.mem_cons_self r rest)),
      ih (fun rend hr => h rend (List.mem_cons_of_mem r hr))⟩

/-- A tree with no bound renderings is returned unchanged by the walk. -/
theorem updatePlaceholders_noData (tf : SField) (phs : List (String × List Rendering))
    (h : ∀ e, e ∈ phs → ∀ rend, rend ∈ e.2 → rend.data = none) :
    updatePlaceholders tf phs = phs := by
  unfold updatePlaceholders
  have : phs.map (fun e => (e.1, e.2.map (updateRendering tf))) = phs.map id :=
    List.map_congr_left (fun e he => by
      have : e.2.map (updateRendering tf) = e.2 :=
        map_updateRendering_noData tf e.2 (fun rend hr => h e he rend hr)
      simp [this])
  simpa using this

/-- The walk never changes a rendering's component name. -/
theorem updateRendering_componentName (tf : SField) (rend : Rendering) :
    (updateRendering tf rend).componentName = rend.componentName := by
  rcases rend with ⟨n, d⟩
  cases d <;> rfl

/-- Erasing the writable slot of an updated binding recovers the erased
original: the walk touches nothing else in a binding. -/
theorem stripBinding_updateBinding (v : String) (b : Binding) :
    stripBinding (updateBinding v b) = stripBinding b := by
  rcases b with ⟨f⟩
  cases f with
  | none => rfl
  | some bf =>
    cases h : bf.jsonValue with
    | none => simp [updateBinding, stripBinding, h]
    | some jv => simp [updateBinding, stripBinding, h]

/-- Erasing the writable slots of an updated rendering recovers the erased
original: the walk touches nothing else in a rendering. -/
theorem stripRendering_updateRendering (tf : SField) (rend : Rendering) :
    stripRendering (updateRendering tf rend) = stripRendering rend := by
  rcases rend with ⟨n, d⟩
  cases d with
  | none => rfl
  | some rd =>
    rcases rd with ⟨ds, ci⟩
    cases ds <;> cases ci <;>
      simp [updateRendering, stripRendering, stripBinding_updateBinding]

/-- Erasing the writable slots of the updated tree recovers the erased
original tree. -/
theorem stripPlaceholders_updatePlaceholders (tf : SField) (phs : List (String × List Rendering)) :
    stripPlaceholders (updatePlaceholders tf phs) = stripPlaceholders phs := by
  unfold stripPlaceholders updatePlaceholders
  rw [List.map_map]
  refine List.map_congr_left (fun e _ => ?_)
  simp only [Function.comp_apply]
  refine congrArg (fun l => (e.1, l)) ?_
  rw [List.map_map]
  exact List.map_congr_left (fun r _ => stripRendering_updateRendering tf r)

/-- The walk preserves the placeholder names, in order. -/
theorem updatePlaceholders_names (tf : SField) (phs : List (String × List Rendering)) :
    (updatePlaceholders tf phs).map Prod.fst = phs.map Prod.fst := by
  unfold updatePlaceholders
  rw [List.map_map]
  exact List.map_congr_left (fun e _ => rfl)

/-- The walk preserves each placeholder's rendering count, order and
component names. -/
theorem updatePlaceholders_components (tf : SField) (phs : List (String × List Rendering)) :
    (updatePlaceholders tf phs).map (fun e => e.2.map Rendering.componentName)
      = phs.map (fun e => e.2.map Rendering.componentName) := by
  unfold updatePlaceholders
  rw [List.map_map]
  refine List.map_congr_left (fun e _ => ?_)
  simp only [Function.comp_apply]
  rw [List.map_map]
  exact List.map_congr_left (fun r _ => updateRendering_componentName tf r)

/-- Claim C5: for every document and title/body field set, applying the
overlay twice with the same field set equals applying it once; and the
overlay is total — with missing substructure (no placeholders with
matching bindings) the tree propagation is a no-op, not an error. -/
theorem c5_overlay_idempotent (r : Route) (t c : String) :
    overlayRoute (overlayRoute r t c) t c = overlayRoute r t c
    ∧ ((∀ e, e ∈ r.placeholders → ∀ rend, rend ∈ e.2 → rend.data = none) →
        (overlayRoute r t c).placeholders = r.placeholders) := by
  constructor
  · by_cases hc : c = "" <;>
      simp [overlayRoute, overlayFields, hc, overlayField_stable, updatePlaceholders_idem]
  · intro h
    simpa [overlayRoute] using updatePlaceholders_noData (overlayField r.fields.title t) _ h

/-- Witness for C5 at a concrete bound template and a concrete template
with no data bindings. -/
theorem c5_overlay_idempotent_witness :
    overlayRoute (overlayRoute wildcardRouteFix "Hello" "Body") "Hello" "Body"
      = overlayRoute wildcardRouteFix "Hello" "Body"
    ∧ (overlayRoute unboundRouteFix "Hello" "Body").placeholders
      = unboundRouteFix.placeholders :=
  ⟨(c5_overlay_idempotent wildcardRouteFix "Hello" "Body").1,
   (c5_overlay_idempotent unboundRouteFix "Hello" "Body").2 (by decide)⟩

/-- Claim C6: the overlay's tree propagation preserves the tree's shape —
placeholder names, rendering count, order and component names — rewrites
only the structured binding leaf values (stripping those slots recovers
the stripped original), and the rewritten tree depends only on the title,
never on the body/content value. -/
theorem c6_overlay_frame (r : Route) (t c c2 : String) :
    (overlayRoute r t c).placeholders.map Prod.fst = r.placeholders.map Prod.fst
    ∧ (overlayRoute r t c).placeholders.map (fun e => e.2.map Rendering.componentName)
      = r.placeholders.map (fun e => e.2.map Rendering.componentName)
    ∧ stripPlaceholders (overlayRoute r t c).placeholders = stripPlaceholders r.placeholders
    ∧ (overlayRoute r t c).placeholders = (overlayRoute r t c2).placeholders := by
  refine ⟨?_, ?_, ?_, ?_⟩ <;>
    simp [overlayRoute, updatePlaceholders_names, updatePlaceholders_components,
      stripPlaceholders_updatePlaceholders]

/-- Claim C2: given a Content Client that returns a wildcard-named
document only for `["blog","*"]` and a remote item named `"Hello"` at the
derived target path, `resolve(["blog","post-1"], site, locale)` returns a
document whose title field equals `"Hello"` and whose route name and
identifier equal the remote item's name and identifier. -/
theorem c2_resolver_tier_order :
    ((resolvePageWithWildcard cfgFix ccWildOnly remoteHello ["blog", "post-1"] "main" "en").bind
        Page.route).map Route.name = some helloItem.name
    ∧ ((resolvePageWithWildcard cfgFix ccWildOnly remoteHello ["blog", "post-1"] "main" "en").bind
        Page.route).map Route.itemId = some helloItem.id
    ∧ (((resolvePageWithWildcard cfgFix ccWildOnly remoteHello ["blog", "post-1"] "main" "en").bind
        Page.route).bind (fun r => r.fields.title)).bind SField.value = some "Hello" := by
  refine ⟨?_, ?_, ?_⟩ <;> decide

/-- Counterexample to claim C1 as stated: with the same remote stub, a
tier-1 lookup that returns the wildcard-named document makes `resolve`
return nothing, while the identical configuration with tier 1 returning
nothing proceeds to enrichment and returns a document — so the wildcard
tier-1 result is terminal, not a trigger for tiers 2–3. -/
theorem c1_counterexample :
    resolvePageWithWildcard cfgFix ccDirectWild remoteHello ["blog", "post-1"] "main" "en" = none
    ∧ resolvePageWithWildcard cfgFix ccWildOnly remoteHello ["blog", "post-1"] "main" "en" ≠ none := by
  exact ⟨by decide, by decide⟩

/-- Claim C1 (amended): whenever tier 1 returns a document whose route
name equals the wildcard marker for a non-empty request path, `resolve`
treats that result as terminal not-found and returns nothing; wildcard
discovery and remote enrichment run only when tier 1 returns nothing. -/
theorem c1_wildcard_tier1_terminal (cfg : Config) (cc : ContentClient) (remote : RemoteFetch)
    (path : List String) (site locale : String) (page : Page)
    (hsys : isSystemRequest path site locale = false)
    (hne : path.filter cleanSegment ≠ [])
    (hcc : cc (path.filter cleanSegment) site (normalizedLocale locale) = .ok (some page))
    (hname : page.routeName = "*") :
    resolvePageWithWildcard cfg cc remote path site locale = none := by
  have hpath : path ≠ [] := by
    intro h
    exact hne (by simp [h])
  unfold resolvePageWithWildcard
  simp [hsys, hne, hcc, hname, hpath]

/-- Witness for the amended C1 at the concrete direct-wildcard client. -/
theorem c1_wildcard_tier1_terminal_witness :
    resolvePageWithWildcard cfgFix ccDirectWild remoteNone ["blog", "post-1"] "main" "en" = none :=
  c1_wildcard_tier1_terminal cfgFix ccDirectWild remoteNone ["blog", "post-1"] "main" "en"
    wildcardDocFix (by decide) (by decide) rfl (by decide)

/-- Claim C3: wildcard discovery generates exactly the candidates
`[first, '*']`, `['*']`, `[first]` in that order; it stops at the first
candidate whose resolved document is wildcard-named or whose path contains
the marker; and the bare-parent candidate is a parent-then-probe-child
sub-case that stops when the probed `[first, '*']` child is
wildcard-named. -/
theorem c3_wildcard_discovery :
    (∀ (p0 : String) (rest : List String),
        qWildcardPaths (p0 :: rest) = [[p0, "*"], ["*"], [p0]])
    ∧ (∀ (cc : ContentClient) (site locale : String) (wp : List String)
        (rest : List (List String)) (acc : Option Page) (page : Page),
        cc wp site locale = .ok (some page) →
        (page.routeName = "*" ∨ wp.contains "*" = true) →
        qDiscoverLoop cc site locale (wp :: rest) acc = some page)
    ∧ (∀ (cc : ContentClient) (site locale : String) (p0 : String)
        (rest : List (List String)) (acc : Option Page) (parent child : Page),
        cc [p0] site locale = .ok (some parent) →
        parent.routeName ≠ "*" → p0 ≠ "*" →
        cc [p0, "*"] site locale = .ok (some child) →
        child.routeName = "*" →
        qDiscoverLoop cc site locale ([p0] :: rest) acc = some child) := by
  refine ⟨fun p0 rest => rfl, ?_, ?_⟩
  · intro cc site locale wp rest acc page hcc h
    unfold qDiscoverLoop
    rw [hcc]
    rcases h with h | h
    · simp [h]
    · have hmem : "*" ∈ wp := by simpa using h
      simp [hmem]
  · intro cc site locale p0 rest acc parent child hcc1 hnw hp0 hcc2 hc
    unfold qDiscoverLoop
    rw [hcc1]
    have hmem : "*" ∉ [p0] := by
      simp only [List.mem_singleton]
      exact fun h => hp0 h.symm
    simp [hnw, hmem, hp0, hcc2, hc]
    intro h
    exact absurd h.symm hp0

/-- Witness for C3: the candidate list for `["blog","post-1"]`, the stop
at the wildcard-shaped first candidate, and the parent-then-probe-child
stop. -/
theorem c3_wildcard_discovery_witness :
    qWildcardPaths ["blog", "post-1"] = [["blog", "*"], ["*"], ["blog"]]
    ∧ qDiscoverLoop ccWildOnly "main" "en" [["blog", "*"], ["*"], ["blog"]] none
        = some wildcardDocFix
    ∧ qDiscoverLoop ccParentProbe "main" "en" [["blog"]] none = some wildcardDocFix :=
  ⟨c3_wildcard_discovery.1 "blog" ["post-1"],
   c3_wildcard_discovery.2.1 ccWildOnly "main" "en" ["blog", "*"] [["*"], ["blog"]] none
     wildcardDocFix rfl (by decide),
   c3_wildcard_discovery.2.2 ccParentProbe "main" "en" "blog" [] none
     parentDocFix wildcardDocFix rfl (by decide) (by decide) rfl (by decide)⟩

/-- Counterexample to claim C4 as stated: when only the root document
exists as a template, enrichment succeeds (route renamed to the remote
item) but the nested `contextItem` binding keeps its original value —
the ancestor-template overlay does not perform tier 3's tree
propagation. -/
theorem c4_counterexample :
    ((resolvePageWithWildcard cfgFix ccRootOnly remoteHello ["blog", "post-1"] "main" "en").bind
        Page.route).map Route.name = some "Hello"
    ∧ contextBindingValue
        (resolvePageWithWildcard cfgFix ccRootOnly remoteHello ["blog", "post-1"] "main" "en")
        = some "Old"
    ∧ itemTitle helloItem = "Hello" := by
  exact ⟨by decide, by decide, by decide⟩

/-- Claim C4 (amended): when wildcard discovery finds no template, the
resolver overlays the remote item's fields onto first the parent document
(path reduced to its first segment) and, when the parent lookup yields
nothing, the root document; the overlay there is restricted to the
top-level route fields plus route name and identifier — the placeholder
tree is kept exactly as in the template, with no binding propagation. -/
theorem c4_ancestor_template_top_level :
    (∀ (cc : ContentClient) (path : List String) (site locale : String) (item : RemoteItem)
        (parentPage : Page) (pr : Route),
        cc (match path with | [] => [] | p0 :: _ => [p0]) site locale = .ok (some parentPage) →
        parentPage.route = some pr →
        ancestorTemplateFallback cc path site locale item
          = some { route := some { name := item.name, itemId := item.id,
                                   fields := overlayFields pr.fields (itemTitle item)
                                     (itemContent item),
                                   placeholders := pr.placeholders } })
    ∧ (∀ (cc : ContentClient) (path : List String) (site locale : String) (item : RemoteItem)
        (rootPage : Page) (rr : Route),
        cc (match path with | [] => [] | p0 :: _ => [p0]) site locale = .ok none →
        cc [] site locale = .ok (some rootPage) →
        rootPage.route = some rr →
        ancestorTemplateFallback cc path site locale item
          = some { route := some { name := item.name, itemId := item.id,
                                   fields := overlayFields rr.fields (itemTitle item)
                                     (itemContent item),
                                   placeholders := rr.placeholders } })
    ∧ (∀ (cfg : Config) (cc : ContentClient) (remote : RemoteFetch) (path : List String)
        (site locale : String) (item : RemoteItem),
        cfg.targetSiteName ≠ "" → cfg.targetSitePath ≠ "" →
        cfg.edgeUrl ≠ "" → cfg.contextId ≠ "" →
        remote (qTargetItemPath cfg path) (normalizedLanguage locale) = .ok (some item) →
        qDiscoverLoop cc site locale (qWildcardPaths path) none = none →
        queryTargetSiteAndCreatePage cfg cc remote path site locale
          = ancestorTemplateFallback cc path site locale item) := by
  refine ⟨?_, ?_, ?_⟩
  · intro cc path site locale item parentPage pr hcc hroute
    unfold ancestorTemplateFallback
    rw [hcc]
    simp [overlayTemplateTopLevel, hroute]
  · intro cc path site locale item rootPage rr hcc1 hcc2 hroute
    unfold ancestorTemplateFallback
    rw [hcc1, hcc2]
    simp [overlayTemplateTopLevel, hroute]
  · intro cfg cc remote path site locale item h1 h2 h3 h4 hremote hdisc
    unfold queryTargetSiteAndCreatePage
    rw [if_neg (by rintro (h | h) <;> [exact h1 h; exact h2 h])]
    rw [if_neg (by rintro (h | h) <;> [exact h3 h; exact h4 h])]
    rw [hremote, hdisc]

/-- Witness for the amended C4: the parent-template case, the
root-template case, and the dispatch from the full query function. -/
theorem c4_ancestor_template_top_level_witness :
    ancestorTemplateFallback ccParentProbe ["blog", "post-1"] "main" "en" helloItem
      = some { route := some { name := helloItem.name, itemId := helloItem.id,
                               fields := overlayFields parentRouteFix.fields (itemTitle helloItem)
                                 (itemContent helloItem),
                               placeholders := parentRouteFix.placeholders } }
    ∧ ancestorTemplateFallback ccRootOnly ["blog", "post-1"] "main" "en" helloItem
      = some { route := some { name := helloItem.name, itemId := helloItem.id,
                               fields := overlayFields rootRouteFix.fields (itemTitle helloItem)
                                 (itemContent helloItem),
                               placeholders := rootRouteFix.placeholders } }
    ∧ queryTargetSiteAndCreatePage cfgFix ccRootOnly remoteHello ["blog", "post-1"] "main" "en"
      = ancestorTemplateFallback ccRootOnly ["blog", "post-1"] "main" "en" helloItem :=
  ⟨c4_ancestor_template_top_level.1 ccParentProbe ["blog", "post-1"] "main" "en" helloItem
     parentDocFix parentRouteFix rfl rfl,
   c4_ancestor_template_top_level.2.1 ccRootOnly ["blog", "post-1"] "main" "en" helloItem
     rootDocFix rootRouteFix rfl rfl rfl,
   c4_ancestor_template_top_level.2.2 cfgFix ccRootOnly remoteHello ["blog", "post-1"] "main" "en"
     helloItem (by decide) (by decide) (by decide) (by decide) rfl rfl⟩

/-- With a Content Client that finds nothing anywhere, the resolver's own
discovery loop yields nothing. -/
theorem resolverDiscover_all_none (cc : ContentClient) (site locale : String)
    (hcc : ∀ p s l, cc p s l = .ok none) :
    ∀ L, resolverDiscover cc site locale L = .ok none := by
  intro L
  induction L with
  | nil => rfl
  | cons wp rest ih =>
    unfold resolverDiscover
    rw [hcc wp site locale]
    exact ih

/-- When every remote fetch reports no item, the target-site query yields
nothing, whatever the Content Client and configuration are. -/
theorem qtsacp_remote_none (cfg : Config) (cc : ContentClient) (remote : RemoteFetch)
    (path : List String) (site locale : String)
    (hremote : ∀ p l, remote p l = .ok none) :
    queryTargetSiteAndCreatePage cfg cc remote path site locale = none := by
  unfold queryTargetSiteAndCreatePage
  split
  · rfl
  split
  · rfl
  rw [hremote]

/-- When every remote fetch throws, the target-site query catches the
error and yields nothing. -/
theorem qtsacp_remote_error (cfg : Config) (cc : ContentClient) (remote : RemoteFetch)
    (err : String → String → String) (path : List String) (site locale : String)
    (hremote : ∀ p l, remote p l = .error (err p l)) :
    queryTargetSiteAndCreatePage cfg cc remote path site locale = none := by
  unfold queryTargetSiteAndCreatePage
  split
  · rfl
  split
  · rfl
  rw [hremote]

/-- Claim C7: the resolver never surfaces an exception (its result type is
an optional document): when both collaborators yield nothing it returns
nothing; when the two target-site environment values are empty and the
Content Client yields nothing it returns nothing regardless of the remote
collaborator; and a remote that throws `RemoteUnavailable` or
`RemoteQueryError` on every call is caught and treated as the enrichment
tier failing, again returning nothing. -/
theorem c7_resolve_not_found :
    (∀ (cfg : Config) (cc : ContentClient) (remote : RemoteFetch)
        (path : List String) (site locale : String),
        (∀ p s l, cc p s l = .ok none) → (∀ p l, remote p l = .ok none) →
        resolvePageWithWildcard cfg cc remote path site locale = none)
    ∧ (∀ (cfg : Config) (cc : ContentClient) (remote : RemoteFetch)
        (path : List String) (site locale : String),
        (cfg.targetSiteName = "" ∨ cfg.targetSitePath = "") →
        (∀ p s l, cc p s l = .ok none) →
        resolvePageWithWildcard cfg cc remote path site locale = none)
    ∧ (∀ (cfg : Config) (cc : ContentClient) (remote : RemoteFetch)
        (err : String → String → String) (path : List String) (site locale : String),
        (∀ p s l, cc p s l = .ok none) → (∀ p l, remote p l = .error (err p l)) →
        resolvePageWithWildcard cfg cc remote path site locale = none) := by
  refine ⟨?_, ?_, ?_⟩
  · intro cfg cc remote path site locale hcc hremote
    have hd := resolverDiscover_all_none cc site (normalizedLocale locale) hcc
    have hq := qtsacp_remote_none cfg cc remote (path.filter cleanSegment) site
      (normalizedLocale locale) hremote
    simp [resolvePageWithWildcard, hcc, hd, hq]
  · intro cfg cc remote path site locale hcfg hcc
    have hd := resolverDiscover_all_none cc site (normalizedLocale locale) hcc
    have hnot : ¬ (cfg.targetSiteName ≠ "" ∧ cfg.targetSitePath ≠ "") := by
      rcases hcfg with h | h
      · exact fun hx => hx.1 h
      · exact fun hx => hx.2 h
    simp [resolvePageWithWildcard, hcc, hd, hnot]
  · intro cfg cc remote err path site locale hcc hremote
    have hd := resolverDiscover_all_none cc site (normalizedLocale locale) hcc
    have hq := qtsacp_remote_error cfg cc remote err (path.filter cleanSegment) site
      (normalizedLocale locale) hremote
    simp [resolvePageWithWildcard, hcc, hd, hq]

/-- Witness for C7: an empty content repository with a remote that finds
nothing, an unset configuration, and a remote that always throws. -/
theorem c7_resolve_not_found_witness :
    resolvePageWithWildcard cfgFix ccNone remoteNone ["blog", "post-1"] "main" "en" = none
    ∧ resolvePageWithWildcard cfgUnset ccNone remoteHello ["blog", "post-1"] "main" "en" = none
    ∧ resolvePageWithWildcard cfgFix ccNone remoteBoom ["blog", "post-1"] "main" "en" = none :=
  ⟨c7_resolve_not_found.1 cfgFix ccNone remoteNone ["blog", "post-1"] "main" "en"
     (fun _ _ _ => rfl) (fun _ _ => rfl),
   c7_resolve_not_found.2.1 cfgUnset ccNone remoteHello ["blog", "post-1"] "main" "en"
     (Or.inl rfl) (fun _ _ _ => rfl),
   c7_resolve_not_found.2.2 cfgFix ccNone remoteBoom remoteBoomMsg ["blog", "post-1"] "main" "en"
     (fun _ _ _ => rfl) (fun _ _ => rfl)⟩

/-- Unfolding equation of `occursIn` at a cons cell. -/
theorem occursIn_cons (p : List Char) (c : Char) (rest : List Char) :
    occursIn p (c :: rest) = (p.isPrefixOf (c :: rest) || occursIn p rest) := rfl

/-- Unfolding equation of `removeFirstOcc` at a cons cell. -/
theorem removeFirstOcc_cons (p : List Char) (c : Char) (rest : List Char) :
    removeFirstOcc p (c :: rest)
      = (if p.isPrefixOf (c :: rest) then (c :: rest).drop p.length
         else c :: removeFirstOcc p rest) := rfl

/-- Unfolding equation of `noMatchBefore` at a cons cell. -/
theorem noMatchBefore_cons (p : List Char) (c : Char) (rest tail : List Char) :
    noMatchBefore p (c :: rest) tail
      = (!(p.isPrefixOf (c :: (rest ++ tail))) && noMatchBefore p rest tail) := rfl

/-- A list is a prefix of itself extended by anything. -/
theorem isPrefixOf_append_self (p t : List Char) : p.isPrefixOf (p ++ t) = true := by
  induction p with
  | nil => simp
  | cons a as ih => simp [List.isPrefixOf_cons₂, ih]

/-- A non-empty pattern occurs in any list that embeds it. -/
theorem occursIn_append_self (pre p t : List Char) (hp : p ≠ []) :
    occursIn p (pre ++ (p ++ t)) = true := by
  induction pre with
  | nil =>
    simp only [List.nil_append]
    rcases p with _ | ⟨a, as⟩
    · exact absurd rfl hp
    · rw [List.cons_append, occursIn_cons, ← List.cons_append, isPrefixOf_append_self]
      simp
  | cons c pre ih =>
    rw [List.cons_append, occursIn_cons, ih]
    simp

/-- Removing the first occurrence of `p` from `pre ++ p ++ post`, when no
occurrence starts inside `pre`, yields `pre ++ post`. -/
theorem removeFirstOcc_append (pre post p : List Char)
    (h : noMatchBefore p pre (p ++ post) = true) :
    removeFirstOcc p (pre ++ (p ++ post)) = pre ++ post := by
  induction pre with
  | nil =>
    simp only [List.nil_append]
    rcases p with _ | ⟨a, as⟩
    · rcases post with _ | ⟨c, cs⟩
      · rfl
      · rw [List.nil_append, removeFirstOcc_cons]
        simp
    · rw [List.cons_append, removeFirstOcc_cons, ← List.cons_append, isPrefixOf_append_self]
      simp only [if_true]
      exact List.drop_left (a :: as) post
  | cons c pre ih =>
    rw [noMatchBefore_cons, Bool.and_eq_true, Bool.not_eq_true'] at h
    obtain ⟨h1, h2⟩ := h
    rw [List.cons_append, removeFirstOcc_cons, h1]
    simp only [Bool.false_eq_true, if_false, List.cons_append]
    exact congrArg (c :: ·) (ih h2)

set_option maxRecDepth 16384 in
/-- Claim C8: synthesized entries are inserted immediately before the
closing `</urlset>` tag, leaving everything before and after the tag
byte-for-byte intact; with the tag absent they are appended at the end;
and on the spec's example base with one synthesized child the output has
exactly one additional `<url>` block and still contains the original
`<url>` block verbatim. -/
theorem c8_sitemap_insertion :
    (∀ (pre post : List Char) (entries : List (List Char)),
        noMatchBefore closingTagChars pre (closingTagChars ++ post) = true →
        insertWildcardEntries (pre ++ (closingTagChars ++ post)) entries
          = pre ++ post ++ entries.flatten ++ '\n' :: closingTagChars)
    ∧ (∀ (base : List Char) (entries : List (List Char)),
        occursIn closingTagChars base = false →
        insertWildcardEntries base entries = base ++ entries.flatten)
    ∧ countOcc (("<url>").toList) (insertWildcardEntries c8base [c8entry])
        = countOcc (("<url>").toList) c8base + 1
    ∧ occursIn (("<url>hello</url>").toList) (insertWildcardEntries c8base [c8entry]) = true := by
  refine ⟨?_, ?_, by decide, by decide⟩
  · intro pre post entries h
    unfold insertWildcardEntries
    have hocc : occursIn closingTagChars (pre ++ (closingTagChars ++ post)) = true :=
      occursIn_append_self pre closingTagChars post (by decide)
    rw [hocc]
    simp only [if_true]
    rw [removeFirstOcc_append pre post closingTagChars h]
  · intro base entries h
    unfold insertWildcardEntries
    rw [h]
    simp

/-- Witness for C8 at the spec's concrete base sitemap, and at a base with
no closing tag. -/
theorem c8_sitemap_insertion_witness :
    insertWildcardEntries (c8pre ++ (closingTagChars ++ [])) [c8entry]
      = c8pre ++ [] ++ [c8entry].flatten ++ '\n' :: closingTagChars
    ∧ insertWildcardEntries c9badBase [c8entry] = c9badBase ++ [c8entry].flatten :=
  ⟨c8_sitemap_insertion.1 c8pre [] [c8entry] (by decide),
   c8_sitemap_insertion.2.1 c9badBase [c8entry] (by decide)⟩

set_option maxRecDepth 16384 in
/-- Counterexample to claim C9 as stated: a malformed base sitemap (no
closing tag) together with a successful enrichment does not return the
base unchanged — the synthesized entry is appended to it. -/
theorem c9_counterexample :
    enhanceSitemapWithWildcardPages smCfgFix "site1" (.ok ["blog"]) (.ok [c9child])
        "https://h" "2026-01-01T00:00:00.000Z" c9badBase
      ≠ c9badBase
    ∧ enhanceSitemapWithWildcardPages smCfgFix "site1" (.ok ["blog"]) (.ok [c9child])
        "https://h" "2026-01-01T00:00:00.000Z" c9badBase
      = c9badBase
        ++ urlEntry (buildFullUrl "https://h" "site1" ["blog"] c9child.name)
          "2026-01-01T00:00:00.000Z" := by
  exact ⟨by decide, by decide⟩

/-- Claim C9 (amended): sitemap enrichment is best-effort — with either
remote-target configuration value absent the input is returned unchanged,
and a failure thrown while determining the wildcard path or fetching the
remote children leaves the base sitemap unchanged; a base sitemap missing
its closing tag is not treated as a failure: synthesized entries are
appended at its end. -/
theorem c9_sitemap_best_effort :
    (∀ (cfg : SitemapConfig) (defaultSite : String) (prefixResult : Except String (List String))
        (childrenResult : Except String (List WildcardChild)) (baseUrl now : String)
        (base : List Char),
        cfg.targetSiteName = "" ∨ cfg.targetSitePath = "" →
        enhanceSitemapWithWildcardPages cfg defaultSite prefixResult childrenResult baseUrl now
          base = base)
    ∧ (∀ (cfg : SitemapConfig) (defaultSite e : String)
        (childrenResult : Except String (List WildcardChild)) (baseUrl now : String)
        (base : List Char),
        enhanceSitemapWithWildcardPages cfg defaultSite (.error e) childrenResult baseUrl now
          base = base)
    ∧ (∀ (cfg : SitemapConfig) (defaultSite : String) (prefixResult : Except String (List String))
        (e baseUrl now : String) (base : List Char),
        enhanceSitemapWithWildcardPages cfg defaultSite prefixResult (.error e) baseUrl now
          base = base)
    ∧ (∀ (cfg : SitemapConfig) (defaultSite : String) (px : List String) (c : WildcardChild)
        (cs : List WildcardChild) (baseUrl now : String) (base : List Char),
        cfg.targetSiteName ≠ "" → cfg.targetSitePath ≠ "" → defaultSite ≠ "" →
        occursIn closingTagChars base = false →
        enhanceSitemapWithWildcardPages cfg defaultSite (.ok px) (.ok (c :: cs)) baseUrl now base
          = base ++ ((c :: cs).map
              (fun child => urlEntry (buildFullUrl baseUrl defaultSite px child.name) now)).flatten) := by
  refine ⟨?_, ?_, ?_, ?_⟩
  · intro cfg defaultSite prefixResult childrenResult baseUrl now base h
    unfold enhanceSitemapWithWildcardPages
    rw [if_pos h]
  · intro cfg defaultSite e childrenResult baseUrl now base
    unfold enhanceSitemapWithWildcardPages
    split
    · rfl
    split
    · rfl
    rfl
  · intro cfg defaultSite prefixResult e baseUrl now base
    unfold enhanceSitemapWithWildcardPages
    split
    · rfl
    split
    · rfl
    split
    · rfl
    rfl
  · intro cfg defaultSite px c cs baseUrl now base h1 h2 h3 hocc
    unfold enhanceSitemapWithWildcardPages
    rw [if_neg (by rintro (h | h) <;> [exact h1 h; exact h2 h])]
    rw [if_neg h3]
    simp only [List.length_cons]
    rw [if_neg (by simp)]
    unfold insertWildcardEntries
    rw [hocc]
    simp

/-- Witness for the amended C9: unset configuration, a throwing
prefix-discovery, a throwing children fetch, and the append-at-end
behaviour on a tag-less base. -/
theorem c9_sitemap_best_effort_witness :
    enhanceSitemapWithWildcardPages smCfgUnset "site1" (.ok ["blog"]) (.ok [c9child])
        "https://h" "2026-01-01T00:00:00.000Z" c8base = c8base
    ∧ enhanceSitemapWithWildcardPages smCfgFix "site1" (.error "RemoteUnavailable")
        (.ok [c9child]) "https://h" "2026-01-01T00:00:00.000Z" c8base = c8base
    ∧ enhanceSitemapWithWildcardPages smCfgFix "site1" (.ok ["blog"])
        (.error "RemoteUnavailable") "https://h" "2026-01-01T00:00:00.000Z" c8base = c8base
    ∧ enhanceSitemapWithWildcardPages smCfgFix "site1" (.ok ["blog"]) (.ok [c9child])
        "https://h" "2026-01-01T00:00:00.000Z" c9badBase
      = c9badBase ++ ([c9child].map
          (fun child => urlEntry (buildFullUrl "https://h" "site1" ["blog"] child.name)
            "2026-01-01T00:00:00.000Z")).flatten :=
  ⟨c9_sitemap_best_effort.1 smCfgUnset "site1" (.ok ["blog"]) (.ok [c9child])
     "https://h" "2026-01-01T00:00:00.000Z" c8base (Or.inl rfl),
   c9_sitemap_best_effort.2.1 smCfgFix "site1" "RemoteUnavailable" (.ok [c9child])
     "https://h" "2026-01-01T00:00:00.000Z" c8base,
   c9_sitemap_best_effort.2.2.1 smCfgFix "site1" (.ok ["blog"]) "RemoteUnavailable"
     "https://h" "2026-01-01T00:00:00.000Z" c8base,
   c9_sitemap_best_effort.2.2.2 smCfgFix "site1" ["blog"] c9child []
     "https://h" "2026-01-01T00:00:00.000Z" c9badBase (by decide) (by decide) (by decide)
     (by decide)⟩

/-- Claim C10: when the remote item exposes no `Title`/`title` field the
overlaid title equals the item's display name; when its
`Content`/`content` field is absent or empty the extracted content is
empty; and overlaying with empty content leaves the template's original
`Content` field unchanged in the returned clone. -/
theorem c10_remote_field_defaults :
    (∀ (item : RemoteItem),
        item.fields.find? (fun f => f.name == "Title" || f.name == "title") = none →
        itemTitle item = item.name)
    ∧ (∀ (item : RemoteItem),
        (∀ f, f ∈ item.fields → (f.name = "Content" ∨ f.name = "content") → f.value = "") →
        itemContent item = "")
    ∧ (∀ (tmpl : Page) (rt : Route) (n i t : String),
        tmpl.route = some rt →
        ((overlayWildcard tmpl n i t "").bind Page.route).map (fun r => r.fields.content)
          = some rt.fields.content) := by
  refine ⟨?_, ?_, ?_⟩
  · intro item h
    unfold itemTitle
    rw [h]
    rfl
  · intro item h
    unfold itemContent
    cases hf : item.fields.find? (fun f => f.name == "Content" || f.name == "content") with
    | none => rfl
    | some f =>
      have hmem := List.mem_of_find?_eq_some hf
      have hpred := List.find?_some hf
      have hname : f.name = "Content" ∨ f.name = "content" := by
        simpa using hpred
      have hv := h f hmem hname
      simp [jsOr, hv]
  · intro tmpl rt n i t hroute
    unfold overlayWildcard
    rw [hroute]
    simp [overlayRoute, overlayFields]

/-- Witness for C10 at the field-less remote item and the wildcard
template. -/
theorem c10_remote_field_defaults_witness :
    itemTitle helloItem = helloItem.name
    ∧ itemContent helloItem = ""
    ∧ ((overlayWildcard wildcardDocFix "Hello" "rid-1" "Hello" "").bind Page.route).map
        (fun r => r.fields.content) = some wildcardRouteFix.fields.content :=
  ⟨c10_remote_field_defaults.1 helloItem rfl,
   c10_remote_field_defaults.2.1 helloItem (fun f hf _ => absurd hf (List.not_mem_nil f)),
   c10_remote_field_defaults.2.2 wildcardDocFix wildcardRouteFix "Hello" "rid-1" "Hello" rfl⟩
